import Mathlib

/-!
Verification of the Execution Runner core of `app/streamlit_app.py`
(functions `run_python`, `run_cpp`, `run_java`, `run_code`, lines 226-288).

The runners are shallowly embedded as pure Lean functions. Interaction
with the operating system (PATH lookup via `shutil.which`, the fresh
temporary-directory name, each `subprocess.run` outcome and the
`time.perf_counter` deltas) is supplied by an `Env` record acting as an
oracle. Each runner returns

  * `Except PyError RunResult` — the dictionary the Python function
    returns, or the exception it lets escape to the caller, and
  * a `Trace` of external effects (temp-dir creation/removal, file
    writes, subprocess invocations with their argument vectors, timeout
    bound and working directory), so that claims about which processes
    are started, with which arguments, and about temp-dir cleanup can be
    stated.

The `with tempfile.TemporaryDirectory() as td:` context manager is
embedded by emitting `Event.mkTempDir` on entry and `Event.rmTempDir`
(which deletes the directory and every file inside it) on every exit
path, including exception propagation, which is exactly the context
manager's guarantee.

Wall-clock durations are embedded as rationals.
-/

set_option autoImplicit false

namespace CodeRunner

/-- Outcome of a completed subprocess: `returncode`, captured `stdout`
and `stderr` (as text), matching the fields of Python's
`CompletedProcess` that the runners read. -/
structure Proc where
  returncode : Int
  stdout : String
  stderr : String
deriving DecidableEq

/-- Outcome of a `subprocess.run` call carrying a `timeout=` argument:
either the process completed (yielding a `Proc`), or the wall-clock
timeout expired, in which case `subprocess.run` raises
`TimeoutExpired`. -/
inductive Outcome where
  | completed (p : Proc)
  | timedOut
deriving DecidableEq

/-- The only exception the embedded runners can let escape:
`subprocess.TimeoutExpired`. -/
inductive PyError where
  | timeoutExpired
deriving DecidableEq

/-- The dictionary each runner returns, with the exact keys of the
source: `{"ok": ..., "stdout": ..., "stderr": ..., "time_s": ...,
"compile_time_s": ...}`. -/
structure RunResult where
  ok : Bool
  stdout : String
  stderr : String
  time_s : Rat
  compile_time_s : Rat
deriving DecidableEq

/-- Externally visible effects of a runner invocation. -/
inductive Event where
  /-- entry of `tempfile.TemporaryDirectory()` -/
  | mkTempDir (td : String)
  /-- `Path.write_text` of the source into the temp dir -/
  | writeFile (path : String) (contents : String)
  /-- a `subprocess.run` call: argument vector, the `timeout=` bound
  (`none` when no timeout argument is passed) and the `cwd=` argument -/
  | runProc (args : List String) (timeout : Option Nat) (cwd : Option String)
  /-- exit of `tempfile.TemporaryDirectory()`: the directory and all
  files inside it are removed -/
  | rmTempDir (td : String)
deriving DecidableEq

abbrev Trace := List Event

/-- Oracle for everything the runners observe from the operating
system. `onPath cmd` is `shutil.which(cmd) is not None`; `tmpdir` is
the name of the fresh temporary directory; `compileProc` and
`compileElapsed` describe the compile-phase subprocess (which carries no
timeout, hence always yields a `Proc`); `runOutcome` and `runElapsed`
describe the run-phase subprocess. -/
structure Env where
  onPath : String → Bool
  sysExecutable : String
  osWindows : Bool
  tmpdir : String
  compileProc : Proc
  compileElapsed : Rat
  runOutcome : Outcome
  runElapsed : Rat

/-- Python interpreter path: `sys.executable or "python"` (the `or`
falls back when `sys.executable` is the empty string). -/
def pythonExe (env : Env) : String :=
  if env.sysExecutable = "" then "python" else env.sysExecutable

/-- Path of the materialized Python file: `Path(td) / "main.py"`. -/
def pyMain (env : Env) : String := env.tmpdir ++ "/main.py"

/-- Path of the materialized C++ file: `Path(td) / "main.cpp"`. -/
def cppSrc (env : Env) : String := env.tmpdir ++ "/main.cpp"

/-- Path of the C++ executable:
`Path(td) / ("main.exe" if os.name == "nt" else "main")`. -/
def cppExe (env : Env) : String :=
  env.tmpdir ++ (if env.osWindows then "/main.exe" else "/main")

/-- Argument vector of the C++ compile invocation:
`["g++", "-O2", "-std=c++17", str(cpp), "-o", str(exe)]`. -/
def cppCompileArgs (env : Env) : List String :=
  ["g++", "-O2", "-std=c++17", cppSrc env, "-o", cppExe env]

/-- Path of the materialized Java file: `Path(td) / f"{cname}.java"`. -/
def javaSrc (env : Env) (cname : String) : String :=
  env.tmpdir ++ "/" ++ cname ++ ".java"

/-- Inclusive codepoint ranges of the character class `\s` of CPython's
`re` module in its default Unicode mode (Unicode 14.0.0, CPython 3.11):
every codepoint `c` with `re.match(r"\s", chr(c))` lies in one of these
ranges and conversely. -/
def pySpaceRanges : List (Nat × Nat) :=
  [(9, 13), (28, 32), (133, 133), (160, 160), (5760, 5760), (8192, 8202), (8232, 8233),
    (8239, 8239), (8287, 8287), (12288, 12288)]

/-- Inclusive codepoint ranges of the character class `\w` of CPython's
`re` module in its default Unicode mode (Unicode 14.0.0, CPython 3.11):
every codepoint `c` with `re.match(r"\w", chr(c))` lies in one of these
ranges and conversely. The underscore (codepoint 95) is one of the
ranges, so `\w` needs no separate underscore case. -/
def pyWordRanges : List (Nat × Nat) :=
  [(48, 57), (65, 90), (95, 95), (97, 122), (170, 170), (178, 179), (181, 181), (185, 186),
    (188, 190), (192, 214), (216, 246), (248, 705), (710, 721), (736, 740), (748, 748),
    (750, 750), (880, 884), (886, 887), (890, 893), (895, 895), (902, 902), (904, 906),
    (908, 908), (910, 929), (931, 1013), (1015, 1153), (1162, 1327), (1329, 1366), (1369, 1369),
    (1376, 1416), (1488, 1514), (1519, 1522), (1568, 1610), (1632, 1641), (1646, 1647),
    (1649, 1747), (1749, 1749), (1765, 1766), (1774, 1788), (1791, 1791), (1808, 1808),
    (1810, 1839), (1869, 1957), (1969, 1969), (1984, 2026), (2036, 2037), (2042, 2042),
    (2048, 2069), (2074, 2074), (2084, 2084), (2088, 2088), (2112, 2136), (2144, 2154),
    (2160, 2183), (2185, 2190), (2208, 2249), (2308, 2361), (2365, 2365), (2384, 2384),
    (2392, 2401), (2406, 2415), (2417, 2432), (2437, 2444), (2447, 2448), (2451, 2472),
    (2474, 2480), (2482, 2482), (2486, 2489), (2493, 2493), (2510, 2510), (2524, 2525),
    (2527, 2529), (2534, 2545), (2548, 2553), (2556, 2556), (2565, 2570), (2575, 2576),
    (2579, 2600), (2602, 2608), (2610, 2611), (2613, 2614), (2616, 2617), (2649, 2652),
    (2654, 2654), (2662, 2671), (2674, 2676), (2693, 2701), (2703, 2705), (2707, 2728),
    (2730, 2736), (2738, 2739), (2741, 2745), (2749, 2749), (2768, 2768), (2784, 2785),
    (2790, 2799), (2809, 2809), (2821, 2828), (2831, 2832), (2835, 2856), (2858, 2864),
    (2866, 2867), (2869, 2873), (2877, 2877), (2908, 2909), (2911, 2913), (2918, 2927),
    (2929, 2935), (2947, 2947), (2949, 2954), (2958, 2960), (2962, 2965), (2969, 2970),
    (2972, 2972), (2974, 2975), (2979, 2980), (2984, 2986), (2990, 3001), (3024, 3024),
    (3046, 3058), (3077, 3084), (3086, 3088), (3090, 3112), (3114, 3129), (3133, 3133),
    (3160, 3162), (3165, 3165), (3168, 3169), (3174, 3183), (3192, 3198), (3200, 3200),
    (3205, 3212), (3214, 3216), (3218, 3240), (3242, 3251), (3253, 3257), (3261, 3261),
    (3293, 3294), (3296, 3297), (3302, 3311), (3313, 3314), (3332, 3340), (3342, 3344),
    (3346, 3386), (3389, 3389), (3406, 3406), (3412, 3414), (3416, 3425), (3430, 3448),
    (3450, 3455), (3461, 3478), (3482, 3505), (3507, 3515), (3517, 3517), (3520, 3526),
    (3558, 3567), (3585, 3632), (3634, 3635), (3648, 3654), (3664, 3673), (3713, 3714),
    (3716, 3716), (3718, 3722), (3724, 3747), (3749, 3749), (3751, 3760), (3762, 3763),
    (3773, 3773), (3776, 3780), (3782, 3782), (3792, 3801), (3804, 3807), (3840, 3840),
    (3872, 3891), (3904, 3911), (3913, 3948), (3976, 3980), (4096, 4138), (4159, 4169),
    (4176, 4181), (4186, 4189), (4193, 4193), (4197, 4198), (4206, 4208), (4213, 4225),
    (4238, 4238), (4240, 4249), (4256, 4293), (4295, 4295), (4301, 4301), (4304, 4346),
    (4348, 4680), (4682, 4685), (4688, 4694), (4696, 4696), (4698, 4701), (4704, 4744),
    (4746, 4749), (4752, 4784), (4786, 4789), (4792, 4798), (4800, 4800), (4802, 4805),
    (4808, 4822), (4824, 4880), (4882, 4885), (4888, 4954), (4969, 4988), (4992, 5007),
    (5024, 5109), (5112, 5117), (5121, 5740), (5743, 5759), (5761, 5786), (5792, 5866),
    (5870, 5880), (5888, 5905), (5919, 5937), (5952, 5969), (5984, 5996), (5998, 6000),
    (6016, 6067), (6103, 6103), (6108, 6108), (6112, 6121), (6128, 6137), (6160, 6169),
    (6176, 6264), (6272, 6276), (6279, 6312), (6314, 6314), (6320, 6389), (6400, 6430),
    (6470, 6509), (6512, 6516), (6528, 6571), (6576, 6601), (6608, 6618), (6656, 6678),
    (6688, 6740), (6784, 6793), (6800, 6809), (6823, 6823), (6917, 6963), (6981, 6988),
    (6992, 7001), (7043, 7072), (7086, 7141), (7168, 7203), (7232, 7241), (7245, 7293),
    (7296, 7304), (7312, 7354), (7357, 7359), (7401, 7404), (7406, 7411), (7413, 7414),
    (7418, 7418), (7424, 7615), (7680, 7957), (7960, 7965), (7968, 8005), (8008, 8013),
    (8016, 8023), (8025, 8025), (8027, 8027), (8029, 8029), (8031, 8061), (8064, 8116),
    (8118, 8124), (8126, 8126), (8130, 8132), (8134, 8140), (8144, 8147), (8150, 8155),
    (8160, 8172), (8178, 8180), (8182, 8188), (8304, 8305), (8308, 8313), (8319, 8329),
    (8336, 8348), (8450, 8450), (8455, 8455), (8458, 8467), (8469, 8469), (8473, 8477),
    (8484, 8484), (8486, 8486), (8488, 8488), (8490, 8493), (8495, 8505), (8508, 8511),
    (8517, 8521), (8526, 8526), (8528, 8585), (9312, 9371), (9450, 9471), (10102, 10131),
    (11264, 11492), (11499, 11502), (11506, 11507), (11517, 11517), (11520, 11557),
    (11559, 11559), (11565, 11565), (11568, 11623), (11631, 11631), (11648, 11670),
    (11680, 11686), (11688, 11694), (11696, 11702), (11704, 11710), (11712, 11718),
    (11720, 11726), (11728, 11734), (11736, 11742), (11823, 11823), (12293, 12295),
    (12321, 12329), (12337, 12341), (12344, 12348), (12353, 12438), (12445, 12447),
    (12449, 12538), (12540, 12543), (12549, 12591), (12593, 12686), (12690, 12693),
    (12704, 12735), (12784, 12799), (12832, 12841), (12872, 12879), (12881, 12895),
    (12928, 12937), (12977, 12991), (13312, 19903), (19968, 42124), (42192, 42237),
    (42240, 42508), (42512, 42539), (42560, 42606), (42623, 42653), (42656, 42735),
    (42775, 42783), (42786, 42888), (42891, 42954), (42960, 42961), (42963, 42963),
    (42965, 42969), (42994, 43009), (43011, 43013), (43015, 43018), (43020, 43042),
    (43056, 43061), (43072, 43123), (43138, 43187), (43216, 43225), (43250, 43255),
    (43259, 43259), (43261, 43262), (43264, 43301), (43312, 43334), (43360, 43388),
    (43396, 43442), (43471, 43481), (43488, 43492), (43494, 43518), (43520, 43560),
    (43584, 43586), (43588, 43595), (43600, 43609), (43616, 43638), (43642, 43642),
    (43646, 43695), (43697, 43697), (43701, 43702), (43705, 43709), (43712, 43712),
    (43714, 43714), (43739, 43741), (43744, 43754), (43762, 43764), (43777, 43782),
    (43785, 43790), (43793, 43798), (43808, 43814), (43816, 43822), (43824, 43866),
    (43868, 43881), (43888, 44002), (44016, 44025), (44032, 55203), (55216, 55238),
    (55243, 55291), (63744, 64109), (64112, 64217), (64256, 64262), (64275, 64279),
    (64285, 64285), (64287, 64296), (64298, 64310), (64312, 64316), (64318, 64318),
    (64320, 64321), (64323, 64324), (64326, 64433), (64467, 64829), (64848, 64911),
    (64914, 64967), (65008, 65019), (65136, 65140), (65142, 65276), (65296, 65305),
    (65313, 65338), (65345, 65370), (65382, 65470), (65474, 65479), (65482, 65487),
    (65490, 65495), (65498, 65500), (65536, 65547), (65549, 65574), (65576, 65594),
    (65596, 65597), (65599, 65613), (65616, 65629), (65664, 65786), (65799, 65843),
    (65856, 65912), (65930, 65931), (66176, 66204), (66208, 66256), (66273, 66299),
    (66304, 66339), (66349, 66378), (66384, 66421), (66432, 66461), (66464, 66499),
    (66504, 66511), (66513, 66517), (66560, 66717), (66720, 66729), (66736, 66771),
    (66776, 66811), (66816, 66855), (66864, 66915), (66928, 66938), (66940, 66954),
    (66956, 66962), (66964, 66965), (66967, 66977), (66979, 66993), (66995, 67001),
    (67003, 67004), (67072, 67382), (67392, 67413), (67424, 67431), (67456, 67461),
    (67463, 67504), (67506, 67514), (67584, 67589), (67592, 67592), (67594, 67637),
    (67639, 67640), (67644, 67644), (67647, 67669), (67672, 67702), (67705, 67742),
    (67751, 67759), (67808, 67826), (67828, 67829), (67835, 67867), (67872, 67897),
    (67968, 68023), (68028, 68047), (68050, 68096), (68112, 68115), (68117, 68119),
    (68121, 68149), (68160, 68168), (68192, 68222), (68224, 68255), (68288, 68295),
    (68297, 68324), (68331, 68335), (68352, 68405), (68416, 68437), (68440, 68466),
    (68472, 68497), (68521, 68527), (68608, 68680), (68736, 68786), (68800, 68850),
    (68858, 68899), (68912, 68921), (69216, 69246), (69248, 69289), (69296, 69297),
    (69376, 69415), (69424, 69445), (69457, 69460), (69488, 69505), (69552, 69579),
    (69600, 69622), (69635, 69687), (69714, 69743), (69745, 69746), (69749, 69749),
    (69763, 69807), (69840, 69864), (69872, 69881), (69891, 69926), (69942, 69951),
    (69956, 69956), (69959, 69959), (69968, 70002), (70006, 70006), (70019, 70066),
    (70081, 70084), (70096, 70106), (70108, 70108), (70113, 70132), (70144, 70161),
    (70163, 70187), (70272, 70278), (70280, 70280), (70282, 70285), (70287, 70301),
    (70303, 70312), (70320, 70366), (70384, 70393), (70405, 70412), (70415, 70416),
    (70419, 70440), (70442, 70448), (70450, 70451), (70453, 70457), (70461, 70461),
    (70480, 70480), (70493, 70497), (70656, 70708), (70727, 70730), (70736, 70745),
    (70751, 70753), (70784, 70831), (70852, 70853), (70855, 70855), (70864, 70873),
    (71040, 71086), (71128, 71131), (71168, 71215), (71236, 71236), (71248, 71257),
    (71296, 71338), (71352, 71352), (71360, 71369), (71424, 71450), (71472, 71483),
    (71488, 71494), (71680, 71723), (71840, 71922), (71935, 71942), (71945, 71945),
    (71948, 71955), (71957, 71958), (71960, 71983), (71999, 71999), (72001, 72001),
    (72016, 72025), (72096, 72103), (72106, 72144), (72161, 72161), (72163, 72163),
    (72192, 72192), (72203, 72242), (72250, 72250), (72272, 72272), (72284, 72329),
    (72349, 72349), (72368, 72440), (72704, 72712), (72714, 72750), (72768, 72768),
    (72784, 72812), (72818, 72847), (72960, 72966), (72968, 72969), (72971, 73008),
    (73030, 73030), (73040, 73049), (73056, 73061), (73063, 73064), (73066, 73097),
    (73112, 73112), (73120, 73129), (73440, 73458), (73648, 73648), (73664, 73684),
    (73728, 74649), (74752, 74862), (74880, 75075), (77712, 77808), (77824, 78894),
    (82944, 83526), (92160, 92728), (92736, 92766), (92768, 92777), (92784, 92862),
    (92864, 92873), (92880, 92909), (92928, 92975), (92992, 92995), (93008, 93017),
    (93019, 93025), (93027, 93047), (93053, 93071), (93760, 93846), (93952, 94026),
    (94032, 94032), (94099, 94111), (94176, 94177), (94179, 94179), (94208, 100343),
    (100352, 101589), (101632, 101640), (110576, 110579), (110581, 110587), (110589, 110590),
    (110592, 110882), (110928, 110930), (110948, 110951), (110960, 111355), (113664, 113770),
    (113776, 113788), (113792, 113800), (113808, 113817), (119520, 119539), (119648, 119672),
    (119808, 119892), (119894, 119964), (119966, 119967), (119970, 119970), (119973, 119974),
    (119977, 119980), (119982, 119993), (119995, 119995), (119997, 120003), (120005, 120069),
    (120071, 120074), (120077, 120084), (120086, 120092), (120094, 120121), (120123, 120126),
    (120128, 120132), (120134, 120134), (120138, 120144), (120146, 120485), (120488, 120512),
    (120514, 120538), (120540, 120570), (120572, 120596), (120598, 120628), (120630, 120654),
    (120656, 120686), (120688, 120712), (120714, 120744), (120746, 120770), (120772, 120779),
    (120782, 120831), (122624, 122654), (123136, 123180), (123191, 123197), (123200, 123209),
    (123214, 123214), (123536, 123565), (123584, 123627), (123632, 123641), (124896, 124902),
    (124904, 124907), (124909, 124910), (124912, 124926), (124928, 125124), (125127, 125135),
    (125184, 125251), (125259, 125259), (125264, 125273), (126065, 126123), (126125, 126127),
    (126129, 126132), (126209, 126253), (126255, 126269), (126464, 126467), (126469, 126495),
    (126497, 126498), (126500, 126500), (126503, 126503), (126505, 126514), (126516, 126519),
    (126521, 126521), (126523, 126523), (126530, 126530), (126535, 126535), (126537, 126537),
    (126539, 126539), (126541, 126543), (126545, 126546), (126548, 126548), (126551, 126551),
    (126553, 126553), (126555, 126555), (126557, 126557), (126559, 126559), (126561, 126562),
    (126564, 126564), (126567, 126570), (126572, 126578), (126580, 126583), (126585, 126588),
    (126590, 126590), (126592, 126601), (126603, 126619), (126625, 126627), (126629, 126633),
    (126635, 126651), (127232, 127244), (130032, 130041), (131072, 173791), (173824, 177976),
    (177984, 178205), (178208, 183969), (183984, 191456), (194560, 195101), (196608, 201546)]

/-- True when the character's codepoint lies in one of the inclusive
ranges. -/
def inRanges (rs : List (Nat × Nat)) (c : Char) : Bool :=
  rs.any (fun r => decide (r.1 ≤ c.toNat) && decide (c.toNat ≤ r.2))

/-- Character class `\s` of Python's `re` module (Unicode mode). -/
def isPySpace (c : Char) : Bool := inRanges pySpaceRanges c

/-- Character class `\w` of Python's `re` module (Unicode mode). -/
def isWordChar (c : Char) : Bool := inRanges pyWordRanges c

/-- Match a literal character sequence at the head of the input,
returning the rest on success. -/
def dropLit : List Char → List Char → Option (List Char)
  | [], s => some s
  | _, [] => none
  | l :: ls, c :: cs => if c == l then dropLit ls cs else none

/-- Attempt to match the pattern `public\s+class\s+([A-Za-z_]\w*)`
anchored at the head of the input, returning the capture group. Since
no whitespace character can begin the literal `class` or the capture
group, the greedy maximal-munch reading used here coincides with the
backtracking semantics of Python's `re`. -/
def matchClassAt (s : List Char) : Option String :=
  match dropLit "public".toList s with
  | none => none
  | some s1 =>
    let (sp1, s2) := s1.span isPySpace
    if sp1.isEmpty then none else
    match dropLit "class".toList s2 with
    | none => none
    | some s3 =>
      let (sp2, s4) := s3.span isPySpace
      if sp2.isEmpty then none else
      match s4 with
      | [] => none
      | c :: rest =>
        if c.isAlpha || c == '_' then
          some (String.mk (c :: rest.takeWhile isWordChar))
        else none

/-- Leftmost match: `re.search` tries the pattern at each successive
start position and the first position that matches wins. -/
def searchClassName : List Char → Option String
  | [] => none
  | c :: rest =>
    match matchClassAt (c :: rest) with
    | some n => some n
    | none => searchClassName rest

/-- Java class-name extraction of `run_java` (lines 267-268):
`m = re.search(r"public\s+class\s+([A-Za-z_]\w*)", code)`;
`cname = m.group(1) if m else "Main"`. -/
def javaClassName (code : String) : String :=
  (searchClassName code.toList).getD "Main"

/-- Embedding of `run_python` (lines 229-241). The interpreter is run
in unbuffered mode (`-u`) on the materialized file under the caller's
timeout; `subprocess.TimeoutExpired` is caught and converted into the
sentinel `Timeout` result. -/
def run_python (code : String) (timeout_s : Nat) (env : Env) :
    Except PyError RunResult × Trace :=
  let td := env.tmpdir
  let f := pyMain env
  let runArgs := [pythonExe env, "-u", f]
  match env.runOutcome with
  | .completed p =>
      (Except.ok { ok := p.returncode == 0, stdout := p.stdout, stderr := p.stderr,
                   time_s := env.runElapsed, compile_time_s := 0 },
       [.mkTempDir td, .writeFile f code,
        .runProc runArgs (some timeout_s) none, .rmTempDir td])
  | .timedOut =>
      (Except.ok { ok := false, stdout := "", stderr := "Timeout",
                   time_s := (timeout_s : Rat), compile_time_s := 0 },
       [.mkTempDir td, .writeFile f code,
        .runProc runArgs (some timeout_s) none, .rmTempDir td])

/-- Embedding of `run_cpp` (lines 243-261). PATH check for `g++`, then
compile (no timeout argument), then on success run the produced binary
under the caller's timeout. There is no handler for
`subprocess.TimeoutExpired` around the run call, so a run-phase timeout
propagates as an exception (while the context manager still removes the
temporary directory). -/
def run_cpp (code : String) (timeout_s : Nat) (env : Env) :
    Except PyError RunResult × Trace :=
  if !(env.onPath "g++") then
    (Except.ok { ok := false, stdout := "", stderr := "g++ not found on PATH.",
                 time_s := 0, compile_time_s := 0 }, [])
  else
    let td := env.tmpdir
    let ct := env.compileElapsed
    let pre : Trace := [.mkTempDir td, .writeFile (cppSrc env) code,
                        .runProc (cppCompileArgs env) none none]
    if env.compileProc.returncode != 0 then
      (Except.ok { ok := false, stdout := env.compileProc.stdout,
                   stderr := env.compileProc.stderr,
                   time_s := 0, compile_time_s := ct }, pre ++ [.rmTempDir td])
    else
      match env.runOutcome with
      | .completed p =>
          (Except.ok { ok := p.returncode == 0, stdout := p.stdout, stderr := p.stderr,
                       time_s := env.runElapsed, compile_time_s := ct },
           pre ++ [.runProc [cppExe env] (some timeout_s) none, .rmTempDir td])
      | .timedOut =>
          (Except.error .timeoutExpired,
           pre ++ [.runProc [cppExe env] (some timeout_s) none, .rmTempDir td])

/-- Embedding of `run_java` (lines 263-281). PATH check for `javac`
and `java`, class-name extraction, compile with `cwd=td` and no timeout
argument, then on success run `java -cp td cname` under the caller's
timeout. As in `run_cpp`, a run-phase `TimeoutExpired` propagates. -/
def run_java (code : String) (timeout_s : Nat) (env : Env) :
    Except PyError RunResult × Trace :=
  if !(env.onPath "javac" && env.onPath "java") then
    (Except.ok { ok := false, stdout := "", stderr := "javac/java not found on PATH.",
                 time_s := 0, compile_time_s := 0 }, [])
  else
    let cname := javaClassName code
    let td := env.tmpdir
    let src := javaSrc env cname
    let ct := env.compileElapsed
    let pre : Trace := [.mkTempDir td, .writeFile src code,
                        .runProc ["javac", src] none (some td)]
    if env.compileProc.returncode != 0 then
      (Except.ok { ok := false, stdout := env.compileProc.stdout,
                   stderr := env.compileProc.stderr,
                   time_s := 0, compile_time_s := ct }, pre ++ [.rmTempDir td])
    else
      match env.runOutcome with
      | .completed p =>
          (Except.ok { ok := p.returncode == 0, stdout := p.stdout, stderr := p.stderr,
                       time_s := env.runElapsed, compile_time_s := ct },
           pre ++ [.runProc ["java", "-cp", td, cname] (some timeout_s) none, .rmTempDir td])
      | .timedOut =>
          (Except.error .timeoutExpired,
           pre ++ [.runProc ["java", "-cp", td, cname] (some timeout_s) none, .rmTempDir td])

/-- Embedding of the dispatcher `run_code` (lines 283-288). -/
def run_code (lang code : String) (timeout_s : Nat) (env : Env) :
    Except PyError RunResult × Trace :=
  if lang = "Python" then run_python code timeout_s env
  else if lang = "C++" then run_cpp code timeout_s env
  else if lang = "Java" then run_java code timeout_s env
  else
    (Except.ok { ok := false, stdout := "", stderr := "Unsupported: " ++ lang,
                 time_s := 0, compile_time_s := 0 }, [])

/-- True when the runner returned a structured result dictionary rather
than letting an exception escape to the caller. -/
def returnsResult (x : Except PyError RunResult × Trace) : Bool :=
  match x.fst with
  | .ok _ => true
  | .error _ => false

/-- The `timeout=` bounds of the subprocess invocations of a trace, in
order of invocation. -/
def timeoutBounds (tr : Trace) : List (Option Nat) :=
  tr.filterMap (fun e =>
    match e with
    | .runProc _ tb _ => some tb
    | _ => none)

/-- Concrete environment: all three toolchains resolvable on PATH,
compilation succeeds, the run phase completes with exit status 0. -/
def envAll : Env :=
  { onPath := fun s => s == "g++" || s == "javac" || s == "java",
    sysExecutable := "/usr/bin/python3",
    osWindows := false,
    tmpdir := "/tmp/t0",
    compileProc := { returncode := 0, stdout := "", stderr := "" },
    compileElapsed := (3 : Rat)/10,
    runOutcome := Outcome.completed { returncode := 0, stdout := "hello\n", stderr := "" },
    runElapsed := (1 : Rat)/100 }

/-- Concrete environment where the run-phase subprocess hits the
wall-clock timeout. -/
def envTO : Env := { envAll with runOutcome := Outcome.timedOut }

/-- Concrete environment where the compiler exits non-zero. -/
def envCompFail : Env :=
  { envAll with compileProc := { returncode := 1, stdout := "cc-out", stderr := "cc-err" } }

/-- Concrete environment where no toolchain executable is resolvable. -/
def envNoTools : Env := { envAll with onPath := fun _ => false }

/-- Concrete environment where the run phase completes with a non-zero
exit status. -/
def envRunFail : Env :=
  { envAll with runOutcome := Outcome.completed { returncode := 2, stdout := "o", stderr := "boom" } }

/-- C1, counterexample: for a C++ request whose run phase times out
(toolchain present, compilation succeeded), `run_code` does not return
a result at all — the `TimeoutExpired` exception escapes to the caller,
so in particular no result with `stderr = "Timeout"` is returned. Only
`run_python` catches `TimeoutExpired`. -/
theorem C1_counterexample :
    (run_code "C++" "int main(){for(;;);}" 1 envTO).fst
        = Except.error PyError.timeoutExpired ∧
    (run_code "C++" "int main(){for(;;);}" 1 envTO).fst
        ≠ Except.ok { ok := false, stdout := "", stderr := "Timeout",
                      time_s := 1, compile_time_s := envTO.compileElapsed } := by
  constructor
  · rfl
  · intro h
    exact Except.noConfusion
      ((by rfl : (run_code "C++" "int main(){for(;;);}" 1 envTO).fst
          = Except.error PyError.timeoutExpired).symm.trans h)

/-- C1, amended: on a run-phase timeout, `run_python` returns
`ok=False`, empty stdout, `stderr="Timeout"`, `time_s` equal to the
configured timeout and `compile_time_s=0`; `run_cpp` and `run_java`,
once they reach the run phase, instead let the `TimeoutExpired`
exception propagate to the caller. -/
theorem C1_run_timeout (code : String) (t : Nat) (env : Env)
    (hto : env.runOutcome = Outcome.timedOut) :
    (run_python code t env).fst =
      Except.ok { ok := false, stdout := "", stderr := "Timeout",
                  time_s := (t : Rat), compile_time_s := 0 } ∧
    (env.onPath "g++" = true → env.compileProc.returncode = 0 →
      (run_cpp code t env).fst = Except.error PyError.timeoutExpired) ∧
    ((env.onPath "javac" && env.onPath "java") = true → env.compileProc.returncode = 0 →
      (run_java code t env).fst = Except.error PyError.timeoutExpired) := by
  refine ⟨?_, fun hg hc => ?_, fun hj hc => ?_⟩
  · simp [run_python, hto]
  · simp [run_cpp, hg, hc, hto]
  · simp [run_java, hj, hc, hto]

/-- Witness for C1_run_timeout at a concrete environment. -/
theorem C1_run_timeout_witness :
    (run_python "x" 7 envTO).fst =
      Except.ok { ok := false, stdout := "", stderr := "Timeout",
                  time_s := (7 : Rat), compile_time_s := 0 } ∧
    (run_cpp "x" 7 envTO).fst = Except.error PyError.timeoutExpired ∧
    (run_java "x" 7 envTO).fst = Except.error PyError.timeoutExpired :=
  ⟨(C1_run_timeout "x" 7 envTO rfl).1,
   (C1_run_timeout "x" 7 envTO rfl).2.1 (by decide) (by decide),
   (C1_run_timeout "x" 7 envTO rfl).2.2 (by decide) (by decide)⟩

/-- C2, counterexample: a Java request whose run phase times out raises
`TimeoutExpired` to the caller instead of returning a structured
result, so "never raises for any ordinary failure mode" fails for the
run-phase-timeout mode of C++ and Java. -/
theorem C2_counterexample :
    returnsResult (run_code "Java" "public class T{}" 2 envTO) = false := by
  rfl

/-- C2, amended: the runners return a structured result without raising
for every ordinary failure mode except a C++/Java run-phase timeout:
`run_python` never raises (it catches `TimeoutExpired`), while
`run_cpp` and `run_java` return a result whenever the run phase does
not time out (covering missing toolchain, compile error and non-zero
run exit), and raise `TimeoutExpired` on a run-phase timeout. -/
theorem C2_no_raise (code : String) (t : Nat) (env : Env) :
    returnsResult (run_python code t env) = true ∧
    (env.runOutcome ≠ Outcome.timedOut →
      returnsResult (run_cpp code t env) = true ∧
      returnsResult (run_java code t env) = true) := by
  constructor
  · cases h : env.runOutcome <;> simp [run_python, returnsResult, h]
  · intro hne
    rcases hro : env.runOutcome with ⟨p⟩ | _
    · constructor
      · by_cases hg : env.onPath "g++"
        · by_cases hc : env.compileProc.returncode = 0 <;>
            simp [run_cpp, returnsResult, hg, hc, hro, bne_iff_ne]
        · simp [run_cpp, returnsResult, hg]
      · by_cases hj : (env.onPath "javac" && env.onPath "java") = true
        · by_cases hc : env.compileProc.returncode = 0 <;>
            simp [run_java, returnsResult, hj, hc, hro, bne_iff_ne]
        · cases hja : env.onPath "javac" <;> cases hjv : env.onPath "java"
          · simp [run_java, returnsResult, hja]
          · simp [run_java, returnsResult, hja]
          · simp [run_java, returnsResult, hja, hjv]
          · exact absurd (by rw [hja, hjv]; rfl) hj
    · exact absurd hro hne

/-- Witness for C2_no_raise at a concrete environment. -/
theorem C2_no_raise_witness :
    returnsResult (run_python "x" 5 envAll) = true ∧
    returnsResult (run_cpp "x" 5 envAll) = true ∧
    returnsResult (run_java "x" 5 envAll) = true :=
  ⟨(C2_no_raise "x" 5 envAll).1,
   ((C2_no_raise "x" 5 envAll).2 (by decide)).1,
   ((C2_no_raise "x" 5 envAll).2 (by decide)).2⟩

/-- C3: when the compiler exits non-zero, `run_cpp` and `run_java`
short-circuit with `ok=False`, the compiler's captured stdout/stderr
verbatim, `time_s=0` and the measured `compile_time_s`; the trace shows
exactly one subprocess invocation (the compiler), so no run-phase
process is started. -/
theorem C3_compile_failure (code : String) (t : Nat) (env : Env)
    (hg : env.onPath "g++" = true)
    (hjs : (env.onPath "javac" && env.onPath "java") = true)
    (hc : env.compileProc.returncode ≠ 0) :
    run_cpp code t env =
      (Except.ok { ok := false, stdout := env.compileProc.stdout,
                   stderr := env.compileProc.stderr,
                   time_s := 0, compile_time_s := env.compileElapsed },
       [Event.mkTempDir env.tmpdir, Event.writeFile (cppSrc env) code,
        Event.runProc (cppCompileArgs env) none none,
        Event.rmTempDir env.tmpdir]) ∧
    run_java code t env =
      (Except.ok { ok := false, stdout := env.compileProc.stdout,
                   stderr := env.compileProc.stderr,
                   time_s := 0, compile_time_s := env.compileElapsed },
       [Event.mkTempDir env.tmpdir,
        Event.writeFile (javaSrc env (javaClassName code)) code,
        Event.runProc ["javac", javaSrc env (javaClassName code)] none (some env.tmpdir),
        Event.rmTempDir env.tmpdir]) := by
  constructor
  · simp [run_cpp, hg, bne_iff_ne, hc]
  · simp [run_java, hjs, bne_iff_ne, hc]

/-- Witness for C3_compile_failure at a concrete environment. -/
theorem C3_compile_failure_witness :
    run_cpp "int main(" 4 envCompFail =
      (Except.ok { ok := false, stdout := "cc-out", stderr := "cc-err",
                   time_s := 0, compile_time_s := envCompFail.compileElapsed },
       [Event.mkTempDir "/tmp/t0", Event.writeFile "/tmp/t0/main.cpp" "int main(",
        Event.runProc ["g++", "-O2", "-std=c++17", "/tmp/t0/main.cpp", "-o", "/tmp/t0/main"]
          none none,
        Event.rmTempDir "/tmp/t0"]) ∧
    run_java "int main(" 4 envCompFail =
      (Except.ok { ok := false, stdout := "cc-out", stderr := "cc-err",
                   time_s := 0, compile_time_s := envCompFail.compileElapsed },
       [Event.mkTempDir "/tmp/t0",
        Event.writeFile "/tmp/t0/Main.java" "int main(",
        Event.runProc ["javac", "/tmp/t0/Main.java"] none (some "/tmp/t0"),
        Event.rmTempDir "/tmp/t0"]) :=
  C3_compile_failure "int main(" 4 envCompFail (by decide) (by decide) (by decide)

/-- C4: with the toolchain unresolvable on PATH, `run_cpp` and
`run_java` short-circuit with `ok=False`, empty stdout, a message
naming the missing tool in stderr, and both durations zero; the empty
trace shows that no temporary directory is created, no file is written
and no process is started. -/
theorem C4_toolchain_missing (code : String) (t : Nat) (envC envJ : Env)
    (hg : envC.onPath "g++" = false)
    (hjs : (envJ.onPath "javac" && envJ.onPath "java") = false) :
    run_cpp code t envC =
      (Except.ok { ok := false, stdout := "", stderr := "g++ not found on PATH.",
                   time_s := 0, compile_time_s := 0 }, []) ∧
    run_java code t envJ =
      (Except.ok { ok := false, stdout := "", stderr := "javac/java not found on PATH.",
                   time_s := 0, compile_time_s := 0 }, []) := by
  constructor
  · simp [run_cpp, hg]
  · simp [run_java, hjs]

/-- Witness for C4_toolchain_missing at a concrete environment. -/
theorem C4_toolchain_missing_witness :
    run_cpp "int main(){}" 9 envNoTools =
      (Except.ok { ok := false, stdout := "", stderr := "g++ not found on PATH.",
                   time_s := 0, compile_time_s := 0 }, []) ∧
    run_java "int main(){}" 9 envNoTools =
      (Except.ok { ok := false, stdout := "", stderr := "javac/java not found on PATH.",
                   time_s := 0, compile_time_s := 0 }, []) :=
  C4_toolchain_missing "int main(){}" 9 envNoTools envNoTools rfl rfl

/-- C5: the Java class name used for the source file, the `javac`
invocation and the `java` entry point is `javaClassName code`, which is
the capture of the first match of the public-class pattern when one
exists and exactly `"Main"` when the pattern has no match; the `.java`
file's base name equals that name. -/
theorem C5_java_class_name (code : String) (t : Nat) (env : Env) (p : Proc)
    (hjs : (env.onPath "javac" && env.onPath "java") = true)
    (hc : env.compileProc.returncode = 0)
    (hr : env.runOutcome = Outcome.completed p) :
    (run_java code t env).snd =
      [Event.mkTempDir env.tmpdir,
       Event.writeFile (env.tmpdir ++ "/" ++ javaClassName code ++ ".java") code,
       Event.runProc ["javac", env.tmpdir ++ "/" ++ javaClassName code ++ ".java"]
         none (some env.tmpdir),
       Event.runProc ["java", "-cp", env.tmpdir, javaClassName code] (some t) none,
       Event.rmTempDir env.tmpdir] ∧
    (searchClassName code.toList = some (javaClassName code) ∨
     (searchClassName code.toList = none ∧ javaClassName code = "Main")) := by
  constructor
  · simp [run_java, javaSrc, hjs, hc, hr]
  · cases h : searchClassName code.toList with
    | none =>
        refine Or.inr ⟨rfl, ?_⟩
        simp only [javaClassName]
        rw [h]
        exact rfl
    | some nm =>
        refine Or.inl ?_
        simp only [javaClassName]
        rw [h]
        exact rfl

/-- Witness for C5_java_class_name at a concrete source text. -/
theorem C5_java_class_name_witness :
    (run_java "public class Foo{}" 3 envAll).snd =
      [Event.mkTempDir envAll.tmpdir,
       Event.writeFile (envAll.tmpdir ++ "/" ++ javaClassName "public class Foo{}" ++ ".java")
         "public class Foo{}",
       Event.runProc
         ["javac", envAll.tmpdir ++ "/" ++ javaClassName "public class Foo{}" ++ ".java"]
         none (some envAll.tmpdir),
       Event.runProc ["java", "-cp", envAll.tmpdir, javaClassName "public class Foo{}"]
         (some 3) none,
       Event.rmTempDir envAll.tmpdir] ∧
    (searchClassName ("public class Foo{}").toList
        = some (javaClassName "public class Foo{}") ∨
     (searchClassName ("public class Foo{}").toList = none ∧
      javaClassName "public class Foo{}" = "Main")) :=
  C5_java_class_name "public class Foo{}" 3 envAll
    { returncode := 0, stdout := "hello\n", stderr := "" } (by decide) rfl rfl

/-- C6: the subprocess invocations are bit-exact: Python runs
`[interpreter, "-u", <file>]`; C++ compiles with
`["g++", "-O2", "-std=c++17", <source>, "-o", <executable>]` and runs
the produced binary; Java compiles with `["javac", <source>]` where the
source base name is the extracted/fallback class name with a `.java`
suffix, and runs `["java", "-cp", <tempdir>, <classname>]`. -/
theorem C6_invocations (code : String) (t : Nat) (env : Env) (p : Proc)
    (hg : env.onPath "g++" = true)
    (hjs : (env.onPath "javac" && env.onPath "java") = true)
    (hc : env.compileProc.returncode = 0)
    (hr : env.runOutcome = Outcome.completed p) :
    (run_python code t env).snd =
      [Event.mkTempDir env.tmpdir, Event.writeFile (pyMain env) code,
       Event.runProc [pythonExe env, "-u", pyMain env] (some t) none,
       Event.rmTempDir env.tmpdir] ∧
    (run_cpp code t env).snd =
      [Event.mkTempDir env.tmpdir, Event.writeFile (cppSrc env) code,
       Event.runProc ["g++", "-O2", "-std=c++17", cppSrc env, "-o", cppExe env] none none,
       Event.runProc [cppExe env] (some t) none,
       Event.rmTempDir env.tmpdir] ∧
    (run_java code t env).snd =
      [Event.mkTempDir env.tmpdir,
       Event.writeFile (javaSrc env (javaClassName code)) code,
       Event.runProc ["javac", javaSrc env (javaClassName code)] none (some env.tmpdir),
       Event.runProc ["java", "-cp", env.tmpdir, javaClassName code] (some t) none,
       Event.rmTempDir env.tmpdir] := by
  refine ⟨?_, ?_, ?_⟩
  · simp [run_python, hr]
  · simp [run_cpp, cppCompileArgs, hg, hc, hr]
  · simp [run_java, hjs, hc, hr]

/-- Witness for C6_invocations at a concrete environment. -/
theorem C6_invocations_witness :
    (run_python "x" 5 envAll).snd =
      [Event.mkTempDir envAll.tmpdir, Event.writeFile (pyMain envAll) "x",
       Event.runProc [pythonExe envAll, "-u", pyMain envAll] (some 5) none,
       Event.rmTempDir envAll.tmpdir] ∧
    (run_cpp "x" 5 envAll).snd =
      [Event.mkTempDir envAll.tmpdir, Event.writeFile (cppSrc envAll) "x",
       Event.runProc ["g++", "-O2", "-std=c++17", cppSrc envAll, "-o", cppExe envAll] none none,
       Event.runProc [cppExe envAll] (some 5) none,
       Event.rmTempDir envAll.tmpdir] ∧
    (run_java "x" 5 envAll).snd =
      [Event.mkTempDir envAll.tmpdir,
       Event.writeFile (javaSrc envAll (javaClassName "x")) "x",
       Event.runProc ["javac", javaSrc envAll (javaClassName "x")] none (some envAll.tmpdir),
       Event.runProc ["java", "-cp", envAll.tmpdir, javaClassName "x"] (some 5) none,
       Event.rmTempDir envAll.tmpdir] :=
  C6_invocations "x" 5 envAll { returncode := 0, stdout := "hello\n", stderr := "" }
    (by decide) (by decide) rfl rfl

/-- C7: when the run phase completes without timeout, the result is
`ok = (returncode == 0)` with the run process's captured stdout/stderr,
for all three languages (after a successful compile for C++ and Java);
the final conjunct spells out that the boolean is true exactly when the
exit status is zero. -/
theorem C7_exit_status (code : String) (t : Nat) (env : Env) (p : Proc)
    (hr : env.runOutcome = Outcome.completed p)
    (hg : env.onPath "g++" = true)
    (hjs : (env.onPath "javac" && env.onPath "java") = true)
    (hc : env.compileProc.returncode = 0) :
    (run_python code t env).fst =
      Except.ok { ok := p.returncode == 0, stdout := p.stdout, stderr := p.stderr,
                  time_s := env.runElapsed, compile_time_s := 0 } ∧
    (run_cpp code t env).fst =
      Except.ok { ok := p.returncode == 0, stdout := p.stdout, stderr := p.stderr,
                  time_s := env.runElapsed, compile_time_s := env.compileElapsed } ∧
    (run_java code t env).fst =
      Except.ok { ok := p.returncode == 0, stdout := p.stdout, stderr := p.stderr,
                  time_s := env.runElapsed, compile_time_s := env.compileElapsed } ∧
    ((p.returncode == 0) = true ↔ p.returncode = 0) := by
  refine ⟨?_, ?_, ?_, ?_⟩
  · simp [run_python, hr]
  · simp [run_cpp, hg, hc, hr]
  · simp [run_java, hjs, hc, hr]
  · simp

/-- Witness for C7_exit_status at a concrete environment with a
non-zero run exit status. -/
theorem C7_exit_status_witness :
    (run_python "x" 5 envRunFail).fst =
      Except.ok { ok := ((2 : Int) == 0), stdout := "o", stderr := "boom",
                  time_s := envRunFail.runElapsed, compile_time_s := 0 } ∧
    (run_cpp "x" 5 envRunFail).fst =
      Except.ok { ok := ((2 : Int) == 0), stdout := "o", stderr := "boom",
                  time_s := envRunFail.runElapsed,
                  compile_time_s := envRunFail.compileElapsed } ∧
    (run_java "x" 5 envRunFail).fst =
      Except.ok { ok := ((2 : Int) == 0), stdout := "o", stderr := "boom",
                  time_s := envRunFail.runElapsed,
                  compile_time_s := envRunFail.compileElapsed } ∧
    (((2 : Int) == 0) = true ↔ (2 : Int) = 0) :=
  C7_exit_status "x" 5 envRunFail { returncode := 2, stdout := "o", stderr := "boom" }
    rfl (by decide) (by decide) rfl

/-- C8: the `timeout=` bounds carried by the subprocess invocations of
a C++ or Java request, in invocation order, are `[none]` (compile
failed, no run process) or `[none, some t]` (compile then run): the
compile subprocess never carries a timeout bound and the caller's bound
is applied exactly to the run-phase subprocess. -/
theorem C8_timeout_scope (code : String) (t : Nat) (env : Env)
    (hg : env.onPath "g++" = true)
    (hjs : (env.onPath "javac" && env.onPath "java") = true) :
    (timeoutBounds (run_cpp code t env).snd = [none] ∨
     timeoutBounds (run_cpp code t env).snd = [none, some t]) ∧
    (timeoutBounds (run_java code t env).snd = [none] ∨
     timeoutBounds (run_java code t env).snd = [none, some t]) := by
  constructor
  · by_cases hc : env.compileProc.returncode = 0
    · cases hro : env.runOutcome <;>
        exact Or.inr (by simp [run_cpp, timeoutBounds, hg, hc, hro])
    · exact Or.inl (by simp [run_cpp, timeoutBounds, hg, bne_iff_ne, hc])
  · by_cases hc : env.compileProc.returncode = 0
    · cases hro : env.runOutcome <;>
        exact Or.inr (by simp [run_java, timeoutBounds, hjs, hc, hro])
    · exact Or.inl (by simp [run_java, timeoutBounds, hjs, bne_iff_ne, hc])

/-- Witness for C8_timeout_scope at a concrete environment. -/
theorem C8_timeout_scope_witness :
    (timeoutBounds (run_cpp "x" 6 envAll).snd = [none] ∨
     timeoutBounds (run_cpp "x" 6 envAll).snd = [none, some 6]) ∧
    (timeoutBounds (run_java "x" 6 envAll).snd = [none] ∨
     timeoutBounds (run_java "x" 6 envAll).snd = [none, some 6]) :=
  C8_timeout_scope "x" 6 envAll (by decide) (by decide)

/-- C9: on every exit path of every runner — success, compile failure,
non-zero run exit, run-phase timeout (including the exception-raising
C++/Java timeout path) — a trace that created the temporary directory
ends with its removal, which deletes the directory and every file
inside it, before control returns to the caller. -/
theorem C9_tmpdir_cleanup (lang code : String) (t : Nat) (env : Env)
    (h : Event.mkTempDir env.tmpdir ∈ (run_code lang code t env).snd) :
    ((run_code lang code t env).snd).getLast? = some (Event.rmTempDir env.tmpdir) := by
  rcases eq_or_ne lang "Python" with hP | hP
  · subst hP
    have e : run_code "Python" code t env = run_python code t env := rfl
    rw [e]
    cases hro : env.runOutcome <;> simp [run_python, hro]
  rcases eq_or_ne lang "C++" with hC | hC
  · subst hC
    have e : run_code "C++" code t env = run_cpp code t env := rfl
    rw [e] at h ⊢
    by_cases hg : env.onPath "g++"
    · by_cases hc : env.compileProc.returncode = 0
      · cases hro : env.runOutcome <;> simp [run_cpp, hg, hc, hro]
      · simp [run_cpp, hg, bne_iff_ne, hc]
    · rw [Bool.not_eq_true] at hg
      simp [run_cpp, hg] at h
  rcases eq_or_ne lang "Java" with hJ | hJ
  · subst hJ
    have e : run_code "Java" code t env = run_java code t env := rfl
    rw [e] at h ⊢
    by_cases hj : (env.onPath "javac" && env.onPath "java") = true
    · by_cases hc : env.compileProc.returncode = 0
      · cases hro : env.runOutcome <;> simp [run_java, hj, hc, hro]
      · simp [run_java, hj, bne_iff_ne, hc]
    · rw [Bool.not_eq_true] at hj
      simp [run_java, hj] at h
  · have e : (run_code lang code t env).snd = [] := by
      simp [run_code, hP, hC, hJ]
    rw [e] at h
    simp at h

/-- Witness for C9_tmpdir_cleanup on the C++ run-timeout path. -/
theorem C9_tmpdir_cleanup_witness :
    ((run_code "C++" "y" 4 envTO).snd).getLast? =
      some (Event.rmTempDir envTO.tmpdir) :=
  C9_tmpdir_cleanup "C++" "y" 4 envTO (by decide)

/-- C10: for a language tag outside {"Python", "C++", "Java"}, the
dispatcher returns `ok=False`, empty stdout, `stderr` equal to
`"Unsupported: "` followed by the tag, both durations zero, without
raising (the result is an `Except.ok`) and with an empty trace (no
file created, no process started). -/
theorem C10_unsupported (lang code : String) (t : Nat) (env : Env)
    (h1 : lang ≠ "Python") (h2 : lang ≠ "C++") (h3 : lang ≠ "Java") :
    run_code lang code t env =
      (Except.ok { ok := false, stdout := "", stderr := "Unsupported: " ++ lang,
                   time_s := 0, compile_time_s := 0 }, []) := by
  simp [run_code, h1, h2, h3]

/-- Witness for C10_unsupported at the language tag "Ruby". -/
theorem C10_unsupported_witness :
    run_code "Ruby" "puts 1" 5 envAll =
      (Except.ok { ok := false, stdout := "", stderr := "Unsupported: " ++ "Ruby",
                   time_s := 0, compile_time_s := 0 }, []) :=
  C10_unsupported "Ruby" "puts 1" 5 envAll (by decide) (by decide) (by decide)

end CodeRunner
